import Mathlib

/-
Verification of the attrs-strict runtime type-validation engine.

Shallow embedding of `src/attrs_strict/_type_validation.py` (together with
`src/attrs_strict/_commons.py`).  Python type-hint objects are embedded as the
inductive `Ty`, runtime values as the inductive `Value`, and raised exceptions
as the error component of `Except PyErr`.

Modelling notes, checked against the source line by line:

* `_validate_elements` and its `_handle_*` helpers recurse through values and
  type descriptors simultaneously.  The embedding `vE` carries a fuel argument
  so that it is structurally recursive (hence computable by `rfl`); every
  recursive call of the source strictly decreases `sizeOf value + sizeOf ty`,
  and `validateElements` applies `vE` with that much fuel.  The lemma
  `validateElements_eq` recovers the natural recursion equation.

* Python's `isinstance(value, base_type)` raises `TypeError` when `base_type`
  is not a class (subscripted generics such as `typing.List[int]`, `TypeVar`s,
  `NewType` functions, `Ellipsis`, `None`); this is `PyErr.typeErrorCrash`.
  Accessing a missing `__args__`/`__supertype__` attribute raises
  `AttributeError` (`PyErr.attributeErrorCrash`), and unpacking
  `(element_type,) = args` with the wrong arity raises `ValueError`
  (`PyErr.unpackErrorCrash`).

* The `attribute` object threaded through the source is used only to build
  error messages (`attribute.type`, `attribute.name`); the message-only
  payload is elided from the embedded errors, which keep the failing value and
  the accumulated container chain, the data the claims are about.

* Python guarantees `bool` is a subclass of `int`; `instOf` mirrors this.

* Dict iteration (`for key in container: ... container[key]`) is embedded as
  iterating the entry list of the dict value in order, which agrees with
  Python's insertion-ordered iteration and indexing for genuine dicts
  (distinct keys).  Set iteration order is taken to be the order of the
  modelled element list.

* The scans over container members and union alternatives are evaluated
  eagerly (all member results are computed and the scan picks the first
  relevant one); since the embedded functions are pure this is observationally
  identical to Python's early-exit iteration.
-/

/-- Embedded Python runtime values. -/
inductive Value where
  | vint (n : Int)
  | vbool (b : Bool)
  | vstr (s : String)
  | vnone
  | vlist (xs : List Value)
  | vset (xs : List Value)
  | vdict (entries : List (Value × Value))
  | vtuple (xs : List Value)

/-- Plain Python classes that occur as validation targets. -/
inductive PyCat where
  | intC | boolC | strC | noneC | listC | setC | dictC | tupleC | callableC
deriving DecidableEq

/-- Embedded type-hint objects (the descriptors walked by `_validate_elements`).
`unionSpecial` is the bare `typing.Union` special form (the `__origin__` of a
subscripted union); `pyNone` is the `None` object as it appears as a
`zip_longest` fill value; `ellipsisTy` is the `Ellipsis` marker of variadic
tuples; `strAnn` is a string annotation and `forwardRef` a `typing.ForwardRef`.
`typeVar` elides the TypeVar's name (used only in messages); `newType` elides
the NewType's name likewise. -/
inductive Ty where
  | any
  | unionSpecial
  | pyNone
  | ellipsisTy
  | cls (c : PyCat)
  | genList (elem : Ty)
  | genSet (elem : Ty)
  | genDict (key : Ty) (val : Ty)
  | genTuple (args : List Ty)
  | genUnion (args : List Ty)
  | typeVar (bound : Option Ty) (constraints : List Ty)
  | newType (supertype : Ty)
  | strAnn (s : String)
  | forwardRef (name : String)

/-- Embedded exceptions raised during validation.  The first three are the
structured validation errors of the library; `stringAnnotationError` is the
internal `_StringAnnotationError`; the `*Crash` variants are the Python
`TypeError` / `AttributeError` / `ValueError` exceptions raised by misusing
`isinstance`, missing `__args__`, and mis-sized unpacking respectively;
`fuelExhausted` is an artefact of the fuel embedding and is unreachable from
`validateElements` (which always supplies enough fuel). -/
inductive PyErr where
  | attributeTypeError (value : Value) (containers : List Value)
  | unionLikeError (value : Value) (containers : List Value)
  | tupleError (value : Value) (containers : List Value)
  | stringAnnotationError
  | emptyError (value : Value)
  | typeErrorCrash
  | attributeErrorCrash
  | unpackErrorCrash
  | fuelExhausted

namespace AttrsStrict

open Value Ty PyErr

mutual
/-- Structural size of a value (the auto-generated `sizeOf` of the nested
inductive is not executable, so the measure used for fuel is defined by
hand). -/
def vsize : Value → Nat
  | vint _ => 2
  | vbool _ => 2
  | vstr _ => 2
  | vnone => 1
  | vlist xs => 1 + vsizeL xs
  | vset xs => 1 + vsizeL xs
  | vdict es => 1 + vsizeP es
  | vtuple xs => 1 + vsizeL xs

/-- Size of a list of values. -/
def vsizeL : List Value → Nat
  | [] => 1
  | x :: xs => 1 + vsize x + vsizeL xs

/-- Size of a list of key-value entries. -/
def vsizeP : List (Value × Value) → Nat
  | [] => 1
  | kv :: xs => 1 + (1 + vsize kv.1 + vsize kv.2) + vsizeP xs
end

mutual
/-- Structural size of a type descriptor. -/
def tsize : Ty → Nat
  | any => 1
  | unionSpecial => 1
  | pyNone => 1
  | ellipsisTy => 1
  | cls _ => 2
  | genList e => 1 + tsize e
  | genSet e => 1 + tsize e
  | genDict k v => 1 + tsize k + tsize v
  | genTuple args => 1 + tsizeL args
  | genUnion args => 1 + tsizeL args
  | typeVar b cs => 1 + tsizeO b + tsizeL cs
  | newType s => 1 + tsize s
  | strAnn _ => 2
  | forwardRef _ => 2

/-- Size of an optional type descriptor. -/
def tsizeO : Option Ty → Nat
  | none => 1
  | some t => 1 + tsize t

/-- Size of a list of type descriptors. -/
def tsizeL : List Ty → Nat
  | [] => 1
  | t :: ts => 1 + tsize t + tsizeL ts
end

/-- Python `isinstance(v, c)` for a plain class `c`.  `bool` is a subclass of
`int`, so boolean values are instances of `int`. -/
def instOf : Value → PyCat → Bool
  | vint _, .intC => true
  | vbool _, .intC => true
  | vbool _, .boolC => true
  | vstr _, .strC => true
  | vnone, .noneC => true
  | vlist _, .listC => true
  | vset _, .setC => true
  | vdict _, .dictC => true
  | vtuple _, .tupleC => true
  | _, _ => false

/-- Python truthiness test (`not field`): zero, empty and `None` values are
falsy. -/
def isFalsy : Value → Bool
  | vint n => n == 0
  | vbool b => !b
  | vstr s => s.isEmpty
  | vnone => true
  | vlist xs => xs.isEmpty
  | vset xs => xs.isEmpty
  | vdict es => es.isEmpty
  | vtuple xs => xs.isEmpty

/-- Elements produced by `for element in container` for sequence-like values.
Only list/set/tuple values ever reach the iterating handlers (they are guarded
by the preceding `isinstance` check), so the remaining cases are unreachable
there and map to `[]`. -/
def iterElems : Value → List Value
  | vlist xs => xs
  | vset xs => xs
  | vtuple xs => xs
  | _ => []

/-- Entry list of a dict value (`for key in container` paired with
`container[key]`).  Non-dict values never reach `_handle_dict` (guarded by
`isinstance`). -/
def dictEntries : Value → List (Value × Value)
  | vdict es => es
  | _ => []

/-- Source `_commons.is_newtype`, specialised to the embedded grammar. -/
def isNewtypeTy : Ty → Bool
  | newType _ => true
  | _ => false

/-- Source `_commons.is_typevar`, specialised to the embedded grammar. -/
def isTypevarTy : Ty → Bool
  | typeVar _ _ => true
  | _ => false

/-- Source `_get_base_type`: unwrap `__origin__` of subscripted generics,
`__supertype__` of NewTypes, and the bound / constraints / implicit-Any of
TypeVars. -/
def getBaseType : Ty → Ty
  | genList _ => cls .listC
  | genSet _ => cls .setC
  | genDict _ _ => cls .dictC
  | genTuple _ => cls .tupleC
  | genUnion _ => unionSpecial
  | newType s => s
  | typeVar (some b) _ => b
  | typeVar none cs => if cs.isEmpty then any else unionSpecial
  | t => t

/-- The `__args__` attribute: present exactly on subscripted generics.
`none` models `AttributeError` on access. -/
def getArgs : Ty → Option (List Ty)
  | genList e => some [e]
  | genSet e => some [e]
  | genDict k v => some [k, v]
  | genTuple args => some args
  | genUnion args => some args
  | _ => none

/-- Alternatives used by the union dispatch in `_validate_elements`:
`expected_type.__constraints__` when the descriptor is a TypeVar, otherwise
`expected_type.__args__`. -/
def unionAlts : Ty → Option (List Ty)
  | typeVar _ cs => some cs
  | t => getArgs t

/-- Tester for `base_type == typing.Any`. -/
def isAnyTy : Ty → Bool
  | any => true
  | _ => false

/-- Tester for `isinstance(base_type, (str, ForwardRef))`. -/
def isStrOrForwardRef : Ty → Bool
  | strAnn _ => true
  | forwardRef _ => true
  | _ => false

/-- Tester for `base_type == typing.Union`. -/
def isUnionSpecialTy : Ty → Bool
  | unionSpecial => true
  | _ => false

/-- Tester for `value is None`. -/
def isVNone : Value → Bool
  | vnone => true
  | _ => false

/-- Tester for a descriptor being literally `type(None)`, as used by
`any(elem is None.__class__ for elem in expected_types)`. -/
def isNoneClassTy : Ty → Bool
  | cls .noneC => true
  | _ => false

/-- The `union_like_has_none_type` check of `_handle_union_like`. -/
def hasNoneType (alts : List Ty) : Bool :=
  alts.any isNoneClassTy

/-- Tester for the `Ellipsis` marker (`tuple_types[1] == Ellipsis`). -/
def isEllipsisTy : Ty → Bool
  | ellipsisTy => true
  | _ => false

/-- The variadic-tuple test of `_handle_tuple`:
`len(tuple_types) == 2 and tuple_types[1] == Ellipsis`. -/
def isRepeatedShape (tupleTypes : List Ty) : Bool :=
  tupleTypes.length == 2 && isEllipsisTy (tupleTypes.getD 1 .any)

/-- Classes that are not container-ish: validating against them ends at the
`isinstance` check (none of the `SimilarTypes` dispatch sets contain them). -/
def isScalarCat : PyCat → Bool
  | .intC => true
  | .boolC => true
  | .strC => true
  | .noneC => true
  | _ => false

/-- Membership in `SimilarTypes.List` of the possible base types. -/
def inSimilarList : Ty → Bool
  | cls .listC => true
  | cls .setC => true
  | _ => false

/-- Membership in `SimilarTypes.Dict` of the possible base types. -/
def inSimilarDict : Ty → Bool
  | cls .dictC => true
  | _ => false

/-- Membership in `SimilarTypes.Tuple` of the possible base types. -/
def inSimilarTuple : Ty → Bool
  | cls .tupleC => true
  | _ => false

/-- Python `isinstance(value, base_type)`.  Only plain classes may be used as
the second argument; every other object (subscripted generic, TypeVar,
NewType function, `Ellipsis`, `None`, bare `typing.Any`) raises `TypeError`. -/
def instanceCheck (v : Value) : Ty → Except PyErr Bool
  | cls c => .ok (instOf v c)
  | _ => .error .typeErrorCrash

/-- Modelled from the spec: the error-class hierarchy lives in `_error.py`,
which is not among the sources; only its import and the tests are visible.
Following the spec's taxonomy (section 4.4), `BadTypeError` is the shared
supertype of exactly the container-context-bearing kinds `AttributeTypeError`,
`UnionLikeError` and `TupleError`; these are what `except BadTypeError`
catches. -/
def isBadTypeError : PyErr → Bool
  | attributeTypeError _ _ => true
  | unionLikeError _ _ => true
  | tupleError _ _ => true
  | _ => false

/-- Modelled from the spec: the error-class hierarchy lives in `_error.py`,
which is not among the sources.  The spec (sections 4.2, 4.4 and the design
note in section 9) has the union-alternative scan's `except ValueError` catch
the per-alternative mismatch kinds `AttributeTypeError` and `UnionLikeError`,
while a `TupleError` raised inside a union alternative "would propagate
instead of trying the next alternative" - i.e. `TupleError` is not
`ValueError`-shaped.  `_StringAnnotationError` derives from `Exception` in the
source itself, and the `TypeError`/`AttributeError` crashes are not
`ValueError`s in Python; Python's unpacking error is a `ValueError`.
`EmptyError` never reaches this site; the spec does not determine its shape
and it is marked not-ValueError-shaped here. -/
def isValueErrorShaped : PyErr → Bool
  | attributeTypeError _ _ => true
  | unionLikeError _ _ => true
  | unpackErrorCrash => true
  | _ => false

/-- Modelled from the spec: `BadTypeError.add_container` lives in `_error.py`,
which is not among the sources.  Per the spec (sections 4.5 and 7), a
container-dispatch step records the enclosing container on the same error
object before re-raising, and the containers end up listed innermost first;
since the innermost handler records first, this is an append.  On non
`BadTypeError` values the operation is never invoked and is the identity. -/
def addContainer (c : Value) : PyErr → PyErr
  | attributeTypeError v cs => attributeTypeError v (cs ++ [c])
  | unionLikeError v cs => unionLikeError v (cs ++ [c])
  | tupleError v cs => tupleError v (cs ++ [c])
  | e => e

/-- Scan of member-validation results by a container handler: the first
failure is re-raised, after `add_container` when it is a `BadTypeError`
(`except BadTypeError as error: error.add_container(container); raise error`).
Non-`BadTypeError` exceptions propagate unchanged. -/
def containerScan (container : Value) : List (Except PyErr Unit) → Except PyErr Unit
  | [] => .ok ()
  | .ok _ :: rest => containerScan container rest
  | .error e :: _ =>
    .error (if isBadTypeError e then addContainer container e else e)

/-- Scan of union/constraint alternatives (`_handle_union_like`'s loop): the
first success wins, a `ValueError`-shaped failure moves on to the next
alternative (`except ValueError: pass`), any other exception propagates, and
exhaustion raises `UnionLikeError`. -/
def unionScan (value : Value) : List (Except PyErr Unit) → Except PyErr Unit
  | [] => .error (.unionLikeError value [])
  | .ok _ :: _ => .ok ()
  | .error e :: rest =>
    if isValueErrorShaped e then unionScan value rest else .error e

/-- One step of `_validate_elements`, parametrised by the recursive calls.
The branches follow the source exactly:
line 107 `base_type = _get_base_type(expected_type)`;
line 109 the `typing.Any` early return;
line 112 the string/ForwardRef check raising `_StringAnnotationError`;
line 117 the `isinstance` check (skipped for `typing.Union`) raising
`AttributeTypeError`;
lines 122-136 the dispatch on the base type to `_handle_union_like`,
`_handle_set_or_list`, `_handle_dict`, `_handle_tuple` (the `_handle_*`
bodies are inlined here; `_handle_callable` is unreachable in this value
model because no embedded value is callable, so its branch is the trailing
no-op together with the plain-type fall-through). -/
def vBody (rec : Value → Ty → Except PyErr Unit) (value : Value) (expected : Ty) :
    Except PyErr Unit :=
  let baseType := getBaseType expected
  if isAnyTy baseType then .ok ()
  else if isStrOrForwardRef baseType then .error .stringAnnotationError
  else if isUnionSpecialTy baseType then
    -- `base_type == typing.Union`: the `isinstance` check is skipped by the
    -- `base_type != typing.Union and ...` guard, and `_handle_union_like` runs.
    match unionAlts expected with
    | none => .error .attributeErrorCrash
    | some alts =>
      if isVNone value && hasNoneType alts then .ok ()
      else unionScan value (alts.map fun alt => rec value alt)
  else
    match instanceCheck value baseType with
    | .error e => .error e
    | .ok false => .error (.attributeTypeError value [])
    | .ok true =>
      if inSimilarList baseType then
        -- `_handle_set_or_list`: `(element_type,) = expected_type.__args__`.
        match getArgs expected with
        | none => .error .attributeErrorCrash
        | some [elementType] =>
          containerScan value ((iterElems value).map fun e => rec e elementType)
        | some _ => .error .unpackErrorCrash
      else if inSimilarDict baseType then
        -- `_handle_dict`: `key_type, value_type = expected_type.__args__`;
        -- the try block covers both the key and the value recursion.
        match getArgs expected with
        | none => .error .attributeErrorCrash
        | some [keyType, valueType] =>
          containerScan value ((dictEntries value).map fun kv =>
            match rec kv.1 keyType with
            | .ok _ => rec kv.2 valueType
            | .error e => .error e)
        | some _ => .error .unpackErrorCrash
      else if inSimilarTuple baseType then
        -- `_handle_tuple`.
        match getArgs expected with
        | none => .error .attributeErrorCrash
        | some tupleTypes =>
          if isRepeatedShape tupleTypes then
            -- variadic: `tuple_types = (element_type,) * len(container)`;
            -- the expansion makes the arity check trivially pass, and zipping
            -- the container with the expanded copies validates every element
            -- against the single repeated descriptor.
            containerScan value
              ((iterElems value).map fun e => rec e (tupleTypes.getD 0 .any))
          else if (iterElems value).length != tupleTypes.length then
            .error (.tupleError value [])
          else
            containerScan value
              (((iterElems value).zip tupleTypes).map fun p => rec p.1 p.2)
      else
        -- `SimilarTypes.Callable` dispatch (unreachable here: no embedded
        -- value satisfies `isinstance(value, Callable)`, so the preceding
        -- check already raised) and the plain-type fall-through: a value that
        -- passed the `isinstance` check against a plain base type is valid.
        .ok ()

/-- Fuel-indexed recursive validator; `vE (n+1)` performs one `vBody` step
with recursive calls at fuel `n`.  Every recursive call of the source strictly
decreases `vsize value + tsize expected`, so fuel that large never runs
out. -/
def vE : Nat → Value → Ty → Except PyErr Unit
  | 0, _, _ => .error .fuelExhausted
  | n + 1, value, expected => vBody (vE n) value expected

/-- Source `_validate_elements(attribute, value, expected_type)` (for a
non-`None` expected type; fields without a type annotation never reach the
claims). -/
def validateElements (value : Value) (expected : Ty) : Except PyErr Unit :=
  vE (vsize value + tsize expected) value expected

/-- The resolved descriptor of an attribute after `resolve_types` ran on the
owning class: `typing.get_type_hints` (embedded as the `hints` map) rewrites
the stored `field.type` for every field it covers and leaves the rest
unchanged. -/
def resolvedType (hints : String → Option Ty) (attrName : String) (attrType : Ty) : Ty :=
  match hints attrName with
  | some h => h
  | none => attrType

mutual
/-- Python `==` on the embedded type-hint objects.  Subscripted generics,
unions and classes compare structurally, exactly as their Python `__eq__`
does.  Python compares `TypeVar` and `NewType` objects by identity; the
embedding elides their names and compares them structurally, which only
matters when two distinct but structurally identical TypeVar/NewType objects
meet - no claim depends on that corner. -/
def tyEq : Ty → Ty → Bool
  | any, any => true
  | unionSpecial, unionSpecial => true
  | pyNone, pyNone => true
  | ellipsisTy, ellipsisTy => true
  | cls c, cls c' => c == c'
  | genList a, genList b => tyEq a b
  | genSet a, genSet b => tyEq a b
  | genDict k v, genDict k' v' => tyEq k k' && tyEq v v'
  | genTuple as, genTuple bs => tyEqL as bs
  | genUnion as, genUnion bs => tyEqL as bs
  | typeVar b cs, typeVar b' cs' => tyEqO b b' && tyEqL cs cs'
  | newType s, newType s' => tyEq s s'
  | strAnn s, strAnn s' => s == s'
  | forwardRef s, forwardRef s' => s == s'
  | _, _ => false

/-- Equality on optional descriptors. -/
def tyEqO : Option Ty → Option Ty → Bool
  | none, none => true
  | some a, some b => tyEq a b
  | _, _ => false

/-- Equality on descriptor lists. -/
def tyEqL : List Ty → List Ty → Bool
  | [], [] => true
  | a :: as, b :: bs => tyEq a b && tyEqL as bs
  | _, _ => false
end

/-- The unwrap step of `_type_matching`: NewTypes and TypeVars are replaced by
their base type before the equality / wildcard test. -/
def unwrapIfVar (t : Ty) : Ty :=
  if isNewtypeTy t || isTypevarTy t then getBaseType t else t

/-- Remaining pairs of `zip_longest` once the first list is exhausted. -/
def padNones : List Ty → List (Ty × Ty)
  | [] => []
  | e :: es => (.pyNone, e) :: padNones es

/-- `itertools.zip_longest` with the default fill value `None` (embedded as
`Ty.pyNone`). -/
def zipLongest : List Ty → List Ty → List (Ty × Ty)
  | [], es => padNones es
  | a :: as, [] => (a, .pyNone) :: zipLongest as []
  | a :: as, e :: es => (a, e) :: zipLongest as es

/-- Python `any(...)` over a generator of boolean results: the first raised
exception propagates, the first `True` short-circuits. -/
def anyScan : List (Except PyErr Bool) → Except PyErr Bool
  | [] => .ok false
  | .ok true :: _ => .ok true
  | .ok false :: rest => anyScan rest
  | .error e :: _ => .error e

/-- Python `all(...)` over a generator of boolean results. -/
def allScan : List (Except PyErr Bool) → Except PyErr Bool
  | [] => .ok true
  | .ok false :: _ => .ok false
  | .ok true :: rest => allScan rest
  | .error e :: _ => .error e

/-- Fuel-indexed `_type_matching(actual, expected)`.  Follows the source:
unwrap NewType/TypeVar on both sides; succeed on equality or when the
*expected* side is `typing.Any`; when the expected base type is
`typing.Union`, succeed if any alternative (constraints for a TypeVar, else
`__args__`) matches the whole actual; when the expected base type lies in the
`SimilarTypes` sets, pair the two `__args__` lists positionally with
`zip_longest` (missing slots filled by `None`) and require every pair to
match; otherwise fail.  Accessing `__args__` of an object without them raises
`AttributeError`. -/
def tmF : Nat → Ty → Ty → Except PyErr Bool
  | 0, _, _ => .error .fuelExhausted
  | n + 1, actual, expected =>
    let actualType := unwrapIfVar actual
    let expectedType := unwrapIfVar expected
    if tyEq expectedType actualType || tyEq expectedType .any then .ok true
    else
      let baseType := getBaseType expected
      if isUnionSpecialTy baseType then
        match unionAlts expected with
        | none => .error .attributeErrorCrash
        | some alts => anyScan (alts.map fun alt => tmF n actual alt)
      else if inSimilarList baseType || inSimilarDict baseType ||
          inSimilarTuple baseType then
        match getArgs actual with
        | none => .error .attributeErrorCrash
        | some aArgs =>
          match getArgs expected with
          | none => .error .attributeErrorCrash
          | some eArgs =>
            allScan ((zipLongest aArgs eArgs).map fun p => tmF n p.1 p.2)
      else .ok false

/-- Source `_type_matching(actual, expected)`: the structural compatibility
matcher used for callable signatures.  Every recursive call strictly
decreases `tsize actual + tsize expected` (a `pyNone` fill value has size 1,
strictly below the size of the generic whose `__args__` are being zipped), so
this much fuel never runs out. -/
def typeMatching (actual expected : Ty) : Except PyErr Bool :=
  tmF (tsize actual + tsize expected) actual expected

/-- Source `type_validator(empty_ok)`'s `_validator(instance, attribute,
field)`: the emptiness pre-check, then `_validate_elements` on the stored
`attribute.type`, with a single `except _StringAnnotationError` that runs
`resolve_types` (mutating the stored descriptors of the owning class in
place) and retries exactly once against the now-resolved `attribute.type`. -/
def typeValidatorRun (emptyOk : Bool) (hints : String → Option Ty)
    (attrName : String) (attrType : Ty) (field : Value) : Except PyErr Unit :=
  if !emptyOk && isFalsy field then .error (.emptyError field)
  else
    match validateElements field attrType with
    | .error .stringAnnotationError =>
      validateElements field (resolvedType hints attrName attrType)
    | r => r

/-- Every value has positive size. -/
theorem one_le_vsize (v : Value) : 1 ≤ vsize v := by
  cases v <;> simp [vsize]

/-- Every descriptor has positive size. -/
theorem one_le_tsize (t : Ty) : 1 ≤ tsize t := by
  cases t <;> simp [tsize] <;> omega

/-- Size of a list member. -/
theorem vsizeL_mem {x : Value} : ∀ {xs : List Value}, x ∈ xs → vsize x < vsizeL xs := by
  intro xs hx
  induction xs with
  | nil => cases hx
  | cons y ys ih =>
    rcases List.mem_cons.mp hx with h | h
    · subst h; simp [vsizeL]; omega
    · have := ih h; simp [vsizeL]; omega

/-- Size of a dict-entry member. -/
theorem vsizeP_mem {kv : Value × Value} : ∀ {es : List (Value × Value)}, kv ∈ es →
    vsize kv.1 < vsizeP es ∧ vsize kv.2 < vsizeP es := by
  intro es hkv
  induction es with
  | nil => cases hkv
  | cons e es ih =>
    rcases List.mem_cons.mp hkv with h | h
    · subst h; simp [vsizeP]; omega
    · have := ih h; simp [vsizeP]; omega

/-- Size of a descriptor-list member. -/
theorem tsizeL_mem {a : Ty} : ∀ {ts : List Ty}, a ∈ ts → tsize a < tsizeL ts := by
  intro ts ha
  induction ts with
  | nil => cases ha
  | cons b bs ih =>
    rcases List.mem_cons.mp ha with h | h
    · subst h; simp [tsizeL]; omega
    · have := ih h; simp [tsizeL]; omega

/-- Iterated elements are strictly smaller than their container. -/
theorem iterElems_mem {e : Value} {v : Value} (h : e ∈ iterElems v) :
    vsize e < vsize v := by
  cases v with
  | vlist xs => have := vsizeL_mem (by simpa [iterElems] using h); simp [vsize]; omega
  | vset xs => have := vsizeL_mem (by simpa [iterElems] using h); simp [vsize]; omega
  | vtuple xs => have := vsizeL_mem (by simpa [iterElems] using h); simp [vsize]; omega
  | _ => simp [iterElems] at h

/-- Dict entries are strictly smaller than the dict value. -/
theorem dictEntries_mem {kv : Value × Value} {v : Value} (h : kv ∈ dictEntries v) :
    vsize kv.1 < vsize v ∧ vsize kv.2 < vsize v := by
  cases v <;> simp [dictEntries] at h
  case vdict es =>
    have := vsizeP_mem h
    simp [vsize]; omega

/-- Members of `__args__` are strictly smaller than the subscripted generic. -/
theorem getArgs_mem {t : Ty} {args : List Ty} {a : Ty}
    (heq : getArgs t = some args) (ha : a ∈ args) : tsize a < tsize t := by
  cases t <;> simp [getArgs] at heq
  case genList e =>
    subst heq; simp at ha; subst ha; simp only [tsize]; omega
  case genSet e =>
    subst heq; simp at ha; subst ha; simp only [tsize]; omega
  case genDict k v =>
    subst heq; simp at ha
    rcases ha with h | h <;> subst h <;> simp only [tsize] <;> omega
  case genTuple as =>
    subst heq; have := tsizeL_mem ha; simp only [tsize]; omega
  case genUnion as =>
    subst heq; have := tsizeL_mem ha; simp only [tsize]; omega

/-- Union/constraint alternatives are strictly smaller than their
descriptor. -/
theorem unionAlts_mem {t : Ty} {alts : List Ty} {a : Ty}
    (heq : unionAlts t = some alts) (ha : a ∈ alts) : tsize a < tsize t := by
  cases t <;>
    first
    | exact getArgs_mem (by simpa [unionAlts] using heq) ha
    | (simp [unionAlts] at heq
       subst heq
       have := tsizeL_mem ha
       simp [tsize]
       omega)

/-- One `vBody` step only invokes its recursive argument at strictly smaller
combined size, so two recursion functions agreeing below the current size
yield the same step. -/
theorem vBody_congr (r1 r2 : Value → Ty → Except PyErr Unit) (v : Value) (t : Ty)
    (h : ∀ v' t', vsize v' + tsize t' < vsize v + tsize t → r1 v' t' = r2 v' t') :
    vBody r1 v t = vBody r2 v t := by
  simp only [vBody]
  split
  · rfl
  split
  · rfl
  split
  · -- union dispatch
    split
    · rfl
    next alts heq =>
    split
    · rfl
    congr 1
    refine List.map_congr_left fun a ha => h v a ?_
    have := unionAlts_mem heq ha
    omega
  -- isinstance then container dispatch
  split
  · rfl
  · rfl
  split
  · -- set or list
    split
    · rfl
    · next elementType heq =>
      congr 1
      refine List.map_congr_left fun e he => h e elementType ?_
      have h1 := iterElems_mem he
      have h2 := getArgs_mem heq (List.mem_singleton.mpr rfl)
      omega
    · rfl
  split
  · -- dict
    split
    · rfl
    · next keyType valueType heq =>
      congr 1
      refine List.map_congr_left fun kv hkv => ?_
      have h1 := dictEntries_mem hkv
      have h2 : tsize keyType < tsize t := getArgs_mem heq (by simp)
      have h3 : tsize valueType < tsize t := getArgs_mem heq (by simp)
      rw [h kv.1 keyType (by omega), h kv.2 valueType (by omega)]
    · rfl
  split
  · -- tuple
    split
    · rfl
    next tupleTypes heq =>
    split
    · next hrep =>
      -- variadic tuple
      congr 1
      refine List.map_congr_left fun e he => ?_
      have h1 := iterElems_mem he
      have hlen : tupleTypes.length = 2 := by
        have hrep2 : (tupleTypes.length == 2) = true :=
          ((Bool.and_eq_true _ _).mp (by simpa [isRepeatedShape] using hrep)).1
        simpa using hrep2
      obtain ⟨a, b, hab⟩ := List.length_eq_two.mp hlen
      have h2 : tsize (tupleTypes.getD 0 .any) < tsize t := by
        apply getArgs_mem heq
        rw [hab]; simp
      exact h e _ (by omega)
    split
    · rfl
    -- fixed tuple
    congr 1
    refine List.map_congr_left fun p hp => ?_
    have hmem := List.of_mem_zip hp
    have h1 := iterElems_mem hmem.1
    have h2 := getArgs_mem heq hmem.2
    exact h p.1 p.2 (by omega)
  rfl

/-- Fuel irrelevance: any two sufficient fuels give the same result. -/
theorem vE_congr : ∀ (s n m : Nat) (v : Value) (t : Ty),
    vsize v + tsize t ≤ s → vsize v + tsize t ≤ n → vsize v + tsize t ≤ m →
    vE n v t = vE m v t := by
  intro s
  induction s with
  | zero =>
    intro n m v t hs _ _
    have := one_le_vsize v
    omega
  | succ s ih =>
    intro n m v t hs hn hm
    have hv := one_le_vsize v
    have ht := one_le_tsize t
    match n, m with
    | 0, _ => omega
    | _ + 1, 0 => omega
    | n + 1, m + 1 =>
      show vBody (vE n) v t = vBody (vE m) v t
      refine vBody_congr _ _ _ _ fun v' t' hlt => ?_
      exact ih n m v' t' (by omega) (by omega) (by omega)

/-- The natural recursion equation of `_validate_elements`: unfolding one step
of the validator applies `vBody` with `validateElements` itself in recursive
position. -/
theorem validateElements_eq (v : Value) (t : Ty) :
    validateElements v t = vBody validateElements v t := by
  have hv := one_le_vsize v
  have ht := one_le_tsize t
  show vE (vsize v + tsize t) v t = _
  obtain ⟨k, hk⟩ : ∃ k, vsize v + tsize t = k + 1 :=
    ⟨vsize v + tsize t - 1, by omega⟩
  rw [hk]
  show vBody (vE k) v t = vBody validateElements v t
  refine vBody_congr _ _ _ _ fun v' t' hlt => ?_
  exact vE_congr k k (vsize v' + tsize t') v' t' (by omega) (by omega) (by omega)

/-- Recording a container does not change the error's class. -/
theorem isBadTypeError_addContainer (c : Value) (e : PyErr) :
    isBadTypeError (addContainer c e) = isBadTypeError e := by
  cases e <;> rfl

/-- A container scan succeeds exactly when every member result succeeded. -/
theorem containerScan_ok_iff (c : Value) (rs : List (Except PyErr Unit)) :
    containerScan c rs = .ok () ↔ ∀ r ∈ rs, r = .ok () := by
  induction rs with
  | nil => simp [containerScan]
  | cons r rest ih =>
    cases r with
    | ok u => cases u; simp [containerScan, ih]
    | error e => simp [containerScan]

/-- Reflexivity of the embedded Python equality, proved for descriptors,
descriptor lists and optional descriptors simultaneously by strong induction
on size. -/
theorem tyEq_refl_aux : ∀ n : Nat,
    (∀ t : Ty, tsize t ≤ n → tyEq t t = true) ∧
    (∀ ts : List Ty, tsizeL ts ≤ n → tyEqL ts ts = true) ∧
    (∀ b : Option Ty, tsizeO b ≤ n → tyEqO b b = true) := by
  intro n
  induction n with
  | zero =>
    refine ⟨fun t ht => absurd ht ?_, fun ts hts => absurd hts ?_,
      fun b hb => absurd hb ?_⟩
    · have := one_le_tsize t; omega
    · cases ts <;> simp only [tsizeL] <;> omega
    · cases b <;> simp only [tsizeO] <;> omega
  | succ n ih =>
    refine ⟨fun t ht => ?_, fun ts hts => ?_, fun b hb => ?_⟩
    · cases t <;> simp only [tsize] at ht
      case any => rfl
      case unionSpecial => rfl
      case pyNone => rfl
      case ellipsisTy => rfl
      case cls c => show (c == c) = true; simp
      case genList a => show tyEq a a = true; exact ih.1 a (by omega)
      case genSet a => show tyEq a a = true; exact ih.1 a (by omega)
      case genDict k v =>
        show (tyEq k k && tyEq v v) = true
        rw [ih.1 k (by omega), ih.1 v (by omega)]; rfl
      case genTuple as => show tyEqL as as = true; exact ih.2.1 as (by omega)
      case genUnion as => show tyEqL as as = true; exact ih.2.1 as (by omega)
      case typeVar b cs =>
        show (tyEqO b b && tyEqL cs cs) = true
        rw [ih.2.2 b (by omega), ih.2.1 cs (by omega)]; rfl
      case newType s => show tyEq s s = true; exact ih.1 s (by omega)
      case strAnn s => show (s == s) = true; simp
      case forwardRef s => show (s == s) = true; simp
    · cases ts with
      | nil => rfl
      | cons t ts =>
        simp only [tsizeL] at hts
        show (tyEq t t && tyEqL ts ts) = true
        rw [ih.1 t (by omega), ih.2.1 ts (by omega)]; rfl
    · cases b with
      | none => rfl
      | some t =>
        simp only [tsizeO] at hb
        show tyEq t t = true
        exact ih.1 t (by omega)

/-- Reflexivity of the embedded Python equality. -/
theorem tyEq_refl (t : Ty) : tyEq t t = true :=
  (tyEq_refl_aux (tsize t)).1 t (Nat.le_refl _)

/-- Validation against a scalar class with a matching value succeeds. -/
theorem validate_scalar_ok (v : Value) (c : PyCat) (hc : isScalarCat c = true)
    (h : instOf v c = true) : validateElements v (.cls c) = .ok () := by
  rw [validateElements_eq]
  cases c <;> simp [isScalarCat] at hc <;>
    simp [vBody, getBaseType, isAnyTy, isStrOrForwardRef, isUnionSpecialTy,
      instanceCheck, h, inSimilarList, inSimilarDict, inSimilarTuple]

/-- Validation against any plain class with a non-instance value raises
`AttributeTypeError`. -/
theorem validate_cls_err (v : Value) (c : PyCat)
    (h : instOf v c = false) :
    validateElements v (.cls c) = .error (.attributeTypeError v []) := by
  rw [validateElements_eq]
  cases c <;>
    simp [vBody, getBaseType, isAnyTy, isStrOrForwardRef, isUnionSpecialTy,
      instanceCheck, h]

/-- Only the none class accepts the `None` value. -/
theorem instOf_vnone {c : PyCat} (h : instOf Value.vnone c = true) : c = .noneC := by
  cases c <;> first | rfl | simp [instOf] at h

/-- Scanning scalar-class alternatives succeeds exactly when the value is an
instance of one of them. -/
theorem unionScan_scalar (v : Value) : ∀ (cs : List PyCat),
    (∀ c ∈ cs, isScalarCat c = true) →
    (unionScan v (cs.map fun c => validateElements v (.cls c)) = .ok () ↔
      ∃ c ∈ cs, instOf v c = true) := by
  intro cs hsc
  induction cs with
  | nil => simp [unionScan]
  | cons c rest ih =>
    have hc := hsc c (List.mem_cons_self c rest)
    have hrest : ∀ c ∈ rest, isScalarCat c = true :=
      fun c' hc' => hsc c' (List.mem_cons_of_mem _ hc')
    cases h : instOf v c with
    | true =>
      rw [List.map_cons, validate_scalar_ok v c hc h]
      constructor
      · intro _; exact ⟨c, List.mem_cons_self c rest, h⟩
      · intro _; rfl
    | false =>
      rw [List.map_cons, validate_cls_err v c h]
      have hstep : ∀ L, unionScan v (.error (.attributeTypeError v []) :: L) =
          unionScan v L := fun L => rfl
      rw [hstep, ih hrest]
      constructor
      · rintro ⟨c', hc', hi⟩; exact ⟨c', List.mem_cons_of_mem _ hc', hi⟩
      · rintro ⟨c', hc', hi⟩
        rcases List.mem_cons.mp hc' with hcc | hcc
        · subst hcc; rw [h] at hi; cases hi
        · exact ⟨c', hcc, hi⟩

/-- The none-class test on mapped plain classes finds exactly the none
class. -/
theorem hasNoneType_map (cs : List PyCat) :
    hasNoneType (cs.map Ty.cls) = true ↔ PyCat.noneC ∈ cs := by
  induction cs with
  | nil => simp [hasNoneType]
  | cons c cs ih =>
    simp only [List.map_cons, hasNoneType, List.any_cons, Bool.or_eq_true] at ih ⊢
    cases c <;> simp [isNoneClassTy] <;> simpa [hasNoneType] using ih

/-- Identity of the `None` value. -/
theorem isVNone_true {v : Value} (h : isVNone v = true) : v = .vnone := by
  cases v <;> first | rfl | simp [isVNone] at h

/-- With the none short-circuit disabled, validating against a union runs the
alternative scan. -/
theorem validate_genUnion (v : Value) (hv : isVNone v = false) (alts : List Ty) :
    validateElements v (.genUnion alts) =
      unionScan v (alts.map fun alt => validateElements v alt) := by
  rw [validateElements_eq]
  show (if isVNone v && hasNoneType alts then Except.ok ()
    else unionScan v (alts.map fun alt => validateElements v alt)) = _
  rw [hv, Bool.false_and]
  rfl

/-- With the none short-circuit disabled, validating against a constrained
TypeVar runs the alternative scan over the constraints. -/
theorem validate_typeVar_constraints (v : Value) (hv : isVNone v = false)
    (d1 : Ty) (rest : List Ty) :
    validateElements v (.typeVar none (d1 :: rest)) =
      unionScan v ((d1 :: rest).map fun alt => validateElements v alt) := by
  rw [validateElements_eq]
  show (if isVNone v && hasNoneType (d1 :: rest) then Except.ok ()
    else unionScan v ((d1 :: rest).map fun alt => validateElements v alt)) = _
  rw [hv, Bool.false_and]
  rfl

/-- CLAIM C1.  A sequence, tuple or mapping dispatch step that catches a
`BadTypeError` from a member records the enclosing container on that same
error and re-raises it (no wrapping); consequently a failure two containers
deep (a mapping value that is a sequence containing the bad element)
propagates as a single error carrying both enclosing containers, innermost
first. -/
theorem claim1_containers (x : Value) (d : Ty) (e : PyErr)
    (hval : validateElements x d = .error e) (hbad : isBadTypeError e = true) :
    validateElements (.vlist [x]) (.genList d) =
      .error (addContainer (.vlist [x]) e) ∧
    validateElements (.vtuple [x]) (.genTuple [d]) =
      .error (addContainer (.vtuple [x]) e) ∧
    validateElements (.vdict [(.vstr "k", .vlist [x])])
        (.genDict (.cls .strC) (.genList d)) =
      .error (addContainer (.vdict [(.vstr "k", .vlist [x])])
        (addContainer (.vlist [x]) e)) := by
  have hlist : validateElements (.vlist [x]) (.genList d) =
      .error (addContainer (.vlist [x]) e) := by
    rw [validateElements_eq]
    show containerScan (.vlist [x]) [validateElements x d] = _
    rw [hval]
    show Except.error (if isBadTypeError e then addContainer (.vlist [x]) e else e) = _
    rw [hbad]
    rfl
  refine ⟨hlist, ?_, ?_⟩
  · rw [validateElements_eq]
    show containerScan (.vtuple [x]) [validateElements x d] = _
    rw [hval]
    show Except.error (if isBadTypeError e then addContainer (.vtuple [x]) e else e) = _
    rw [hbad]
    rfl
  · rw [validateElements_eq]
    show containerScan (.vdict [(.vstr "k", .vlist [x])])
      [validateElements (.vlist [x]) (.genList d)] = _
    rw [hlist]
    show Except.error (if isBadTypeError (addContainer (.vlist [x]) e) then
        addContainer (.vdict [(.vstr "k", .vlist [x])]) (addContainer (.vlist [x]) e)
      else addContainer (.vlist [x]) e) = _
    rw [isBadTypeError_addContainer, hbad]
    rfl

/-- Witness for C1: the spec's scenario 5 shape, with the inner list and the
outer dict recorded innermost-first on the single propagated error. -/
theorem claim1_containers_witness :
    validateElements (.vdict [(.vstr "k", .vlist [.vstr "x"])])
        (.genDict (.cls .strC) (.genList (.cls .intC))) =
      .error (.attributeTypeError (.vstr "x")
        [.vlist [.vstr "x"], .vdict [(.vstr "k", .vlist [.vstr "x"])]]) :=
  (claim1_containers (.vstr "x") (.cls .intC)
    (.attributeTypeError (.vstr "x") []) rfl rfl).2.2

/-- CLAIM C2.  The field-level entry point catches the needs-resolution signal
(`_StringAnnotationError`) exactly once, resolves the owning type's stored
descriptors, and retries the whole validation exactly once against the
resolved descriptor; if the retried validation signals again, that failure
propagates and is not retried a second time. -/
theorem claim2_retry_once (hints : String → Option Ty) (attrName : String)
    (attrType : Ty) (field : Value)
    (h1 : validateElements field attrType = .error .stringAnnotationError) :
    (typeValidatorRun true hints attrName attrType field =
      validateElements field (resolvedType hints attrName attrType)) ∧
    (validateElements field (resolvedType hints attrName attrType) =
        .error .stringAnnotationError →
      typeValidatorRun true hints attrName attrType field =
        .error .stringAnnotationError) := by
  have p1 : typeValidatorRun true hints attrName attrType field =
      validateElements field (resolvedType hints attrName attrType) := by
    show (match validateElements field attrType with
      | .error .stringAnnotationError =>
        validateElements field (resolvedType hints attrName attrType)
      | r => r) = _
    rw [h1]
  exact ⟨p1, fun h2 => p1.trans h2⟩

/-- Witness for C2: a forward reference that resolution leaves unresolved
makes the retried validation fail with the same signal, which propagates. -/
theorem claim2_retry_once_witness :
    typeValidatorRun true (fun _ => none) "f" (.forwardRef "X") (.vint 1) =
      .error .stringAnnotationError :=
  (claim2_retry_once (fun _ => none) "f" (.forwardRef "X") (.vint 1) rfl).2 rfl

/-- Counterexample for C3 as stated: for the container bound
`B = typing.List[int]` and the value `[1]`, `validate(v, B)` succeeds while
`validate(v, TypeVar(bound=B))` raises `TypeError` (the bound is returned by
`_get_base_type` still subscripted and fed to `isinstance`), so the claimed
equivalence fails. -/
theorem claim3_bound_cex :
    ¬ ((validateElements (.vlist [.vint 1])
          (.typeVar (some (.genList (.cls .intC))) []) = Except.ok ()) ↔
       (validateElements (.vlist [.vint 1]) (.genList (.cls .intC)) =
          Except.ok ())) :=
  fun h => nomatch h.mpr rfl

/-- CLAIM C3, amended.  For a bound that is a plain class the bound is fully
transparent: validating against `TypeVar(bound=C)` is identical to validating
against `C` (for subscripted container bounds the equivalence fails, see the
counterexample). -/
theorem claim3_bound_transparent (v : Value) (c : PyCat) :
    validateElements v (.typeVar (some (.cls c)) []) =
      validateElements v (.cls c) := by
  rw [validateElements_eq, validateElements_eq]
  rfl

/-- CLAIM C5.  During the ordered scan of union/constraint alternatives, a
`ValueError`-shaped failure moves the scan to the next alternative, while any
other exception propagates out of the union dispatch immediately and the
remaining alternatives are never attempted (the conclusion holds for every
`rest`, matching or not). -/
theorem claim5_union_scan (v : Value) (d1 : Ty) (rest : List Ty) (e : PyErr)
    (hv : isVNone v = false)
    (h1 : validateElements v d1 = .error e) :
    (isValueErrorShaped e = false →
      validateElements v (.genUnion (d1 :: rest)) = .error e ∧
      validateElements v (.typeVar none (d1 :: rest)) = .error e) ∧
    (isValueErrorShaped e = true →
      validateElements v (.genUnion (d1 :: rest)) =
        validateElements v (.genUnion rest)) := by
  have hscan : unionScan v ((d1 :: rest).map fun alt => validateElements v alt) =
      if isValueErrorShaped e then
        unionScan v (rest.map fun alt => validateElements v alt)
      else .error e := by
    rw [List.map_cons, h1]
    rfl
  constructor
  · intro hsh
    rw [validate_genUnion v hv, validate_typeVar_constraints v hv, hscan, hsh]
    exact ⟨rfl, rfl⟩
  · intro hsh
    rw [validate_genUnion v hv, validate_genUnion v hv, hscan, hsh]
    simp

/-- Witness for C5: a `TupleError` raised by the first alternative (arity
mismatch) propagates out of the constrained TypeVar even though the second
alternative matches the value. -/
theorem claim5_union_scan_witness :
    validateElements (.vtuple [.vint 1])
        (.typeVar none [.genTuple [.cls .intC, .cls .intC], .genTuple [.cls .intC]]) =
      .error (.tupleError (.vtuple [.vint 1]) []) :=
  ((claim5_union_scan (.vtuple [.vint 1]) (.genTuple [.cls .intC, .cls .intC])
    [.genTuple [.cls .intC]] (.tupleError (.vtuple [.vint 1]) []) rfl rfl).1 rfl).2

/-- Counterexample for C4 as stated: with constraints
`[Tuple[int, int], Tuple[int]]` and value `(1,)`, the value satisfies the
second constraint, yet validation fails because the first constraint raises a
`TupleError`, which is not `ValueError`-shaped; permuting the constraints
changes failure into success. -/
theorem claim4_order_cex :
    validateElements (.vtuple [.vint 1])
        (.typeVar none [.genTuple [.cls .intC, .cls .intC], .genTuple [.cls .intC]]) =
      .error (.tupleError (.vtuple [.vint 1]) []) ∧
    validateElements (.vtuple [.vint 1]) (.genTuple [.cls .intC]) = .ok () ∧
    validateElements (.vtuple [.vint 1])
        (.typeVar none [.genTuple [.cls .intC], .genTuple [.cls .intC, .cls .intC]]) =
      .ok () :=
  ⟨rfl, rfl, rfl⟩

/-- CLAIM C4, amended.  For a constrained TypeVar whose constraints are plain
scalar classes (so every non-matching alternative fails `ValueError`-shaped),
validation succeeds exactly when the value is an instance of at least one
constraint, and permuting the constraints never changes success into failure;
when an alternative can raise a non-`ValueError`-shaped error (e.g. a
fixed-arity `TupleError`), order does matter, see the counterexample. -/
theorem claim4_constraints (v : Value) (cs : List PyCat) (hne : cs ≠ [])
    (hsc : ∀ c ∈ cs, isScalarCat c = true) :
    ((validateElements v (.typeVar none (cs.map Ty.cls)) = .ok ()) ↔
      ∃ c ∈ cs, instOf v c = true) ∧
    (∀ ds : List PyCat, List.Perm ds cs →
      ((validateElements v (.typeVar none (ds.map Ty.cls)) = .ok ()) ↔
       (validateElements v (.typeVar none (cs.map Ty.cls)) = .ok ()))) := by
  have main : ∀ (ds : List PyCat), ds ≠ [] → (∀ c ∈ ds, isScalarCat c = true) →
      ((validateElements v (.typeVar none (ds.map Ty.cls)) = .ok ()) ↔
        ∃ c ∈ ds, instOf v c = true) := by
    intro ds hdne hdsc
    obtain ⟨c0, ds0, rfl⟩ := List.exists_cons_of_ne_nil hdne
    rw [validateElements_eq]
    show ((if isVNone v && hasNoneType ((c0 :: ds0).map Ty.cls) then Except.ok ()
      else unionScan v (((c0 :: ds0).map Ty.cls).map fun alt =>
        validateElements v alt)) = Except.ok ()) ↔ _
    cases hnv : isVNone v && hasNoneType ((c0 :: ds0).map Ty.cls) with
    | true =>
      rw [if_pos rfl]
      have hv := isVNone_true ((Bool.and_eq_true _ _).mp hnv).1
      subst hv
      have hmem := (hasNoneType_map (c0 :: ds0)).mp ((Bool.and_eq_true _ _).mp hnv).2
      exact ⟨fun _ => ⟨.noneC, hmem, rfl⟩, fun _ => rfl⟩
    | false =>
      rw [if_neg (by simp)]
      rw [List.map_map]
      have hcomp : ((fun alt => validateElements v alt) ∘ Ty.cls) =
          fun c => validateElements v (.cls c) := rfl
      rw [hcomp]
      exact unionScan_scalar v (c0 :: ds0) hdsc
  refine ⟨main cs hne hsc, fun ds hp => ?_⟩
  have hdne : ds ≠ [] := by
    intro h
    subst h
    exact hne (List.Perm.nil_eq hp).symm
  have hdsc : ∀ c ∈ ds, isScalarCat c = true := fun c hc => hsc c (hp.mem_iff.mp hc)
  rw [main ds hdne hdsc, main cs hne hsc]
  constructor
  · rintro ⟨c, hc, hi⟩; exact ⟨c, hp.mem_iff.mp hc, hi⟩
  · rintro ⟨c, hc, hi⟩; exact ⟨c, hp.mem_iff.mpr hc, hi⟩

/-- Witness for C4: an int against the scalar constraints `(str, int)`
validates, via the amended equivalence. -/
theorem claim4_constraints_witness :
    validateElements (.vint 2) (.typeVar none [.cls .strC, .cls .intC]) = .ok () :=
  (claim4_constraints (.vint 2) [.strC, .intC] (by simp)
    (by intro c hc; rcases List.mem_cons.mp hc with rfl | hc
        · rfl
        · rcases List.mem_cons.mp hc with rfl | hc
          · rfl
          · cases hc)).1.mpr ⟨.intC, by simp, rfl⟩


/-- Counterexample for C6 as stated: the wildcard on the *actual* side is not
accepted; `_type_matching(typing.Any, int)` returns `False` because only the
expected side is compared against `typing.Any`. -/
theorem claim6_matcher_cex : typeMatching .any (.cls .intC) = .ok false := rfl

/-- CLAIM C6, amended.  After unwrapping NewType/TypeVar on both sides the
matcher succeeds whenever the two descriptors are equal or the *expected*
side is the wildcard (`typing.Any`, or an unconstrained TypeVar treated as
"no constraint"); `compatible(E, Wildcard)` is true for every `E`, but
`compatible(Wildcard, E)` can be false (see the counterexample). -/
theorem claim6_matcher (a e : Ty) :
    (unwrapIfVar e = unwrapIfVar a → typeMatching a e = .ok true) ∧
    typeMatching a .any = .ok true ∧
    typeMatching a (.typeVar none []) = .ok true := by
  have key : ∀ (e' : Ty), (tyEq (unwrapIfVar e') (unwrapIfVar a) ||
      tyEq (unwrapIfVar e') .any) = true → typeMatching a e' = .ok true := by
    intro e' hcond
    obtain ⟨k, hk⟩ : ∃ k, tsize a + tsize e' = k + 1 :=
      ⟨tsize a + tsize e' - 1, by have := one_le_tsize a; omega⟩
    show tmF (tsize a + tsize e') a e' = .ok true
    rw [hk]
    show (if tyEq (unwrapIfVar e') (unwrapIfVar a) || tyEq (unwrapIfVar e') .any
      then Except.ok true else _) = _
    rw [hcond]
    rfl
  refine ⟨fun heq => key e ?_, key .any ?_, key (.typeVar none []) ?_⟩
  · rw [heq, tyEq_refl]
    rfl
  · show (tyEq Ty.any (unwrapIfVar a) || true) = true
    exact Bool.or_true _
  · show (tyEq Ty.any (unwrapIfVar a) || true) = true
    exact Bool.or_true _

/-- Witness for C6: a NewType alias of `str` unwraps to `str` and matches. -/
theorem claim6_matcher_witness :
    typeMatching (.cls .strC) (.newType (.cls .strC)) = .ok true :=
  (claim6_matcher (.cls .strC) (.newType (.cls .strC))).1 rfl

/-- CLAIM C7.  A fixed-arity tuple descriptor applied to a tuple of the wrong
length fails with `TupleError` no matter what the elements are (so before and
independent of any element-level recursion). -/
theorem claim7_arity (elems : List Value) (tys : List Ty)
    (hshape : isRepeatedShape tys = false)
    (hlen : elems.length ≠ tys.length) :
    validateElements (.vtuple elems) (.genTuple tys) =
      .error (.tupleError (.vtuple elems) []) := by
  rw [validateElements_eq]
  show (if isRepeatedShape tys then
      containerScan (.vtuple elems) (elems.map fun e =>
        validateElements e (tys.getD 0 .any))
    else if elems.length != tys.length then
      Except.error (.tupleError (.vtuple elems) [])
    else containerScan (.vtuple elems) ((elems.zip tys).map fun p =>
      validateElements p.1 p.2)) = _
  have hbne : (elems.length != tys.length) = true := by
    simpa [bne_iff_ne] using hlen
  rw [hshape, hbne]
  rfl

/-- Witness for C7: arity 2 against a fixed 1-descriptor tuple, with an
element that would have matched. -/
theorem claim7_arity_witness :
    validateElements (.vtuple [.vint 1, .vint 2]) (.genTuple [.cls .intC]) =
      .error (.tupleError (.vtuple [.vint 1, .vint 2]) []) :=
  claim7_arity [.vint 1, .vint 2] [.cls .intC] rfl (by decide)

/-- CLAIM C8.  A variadic tuple descriptor `Tuple[d, ...]` accepts a tuple
exactly when every element satisfies `d`: the repeated descriptor is expanded
to one copy per element before the arity check, so an arity mismatch cannot
occur. -/
theorem claim8_repeated (elems : List Value) (d : Ty) :
    validateElements (.vtuple elems) (.genTuple [d, .ellipsisTy]) = .ok () ↔
      ∀ e ∈ elems, validateElements e d = .ok () := by
  rw [validateElements_eq]
  show containerScan (.vtuple elems)
    (elems.map fun e => validateElements e d) = .ok () ↔ _
  rw [containerScan_ok_iff]
  constructor
  · intro h e he
    exact h _ (List.mem_map_of_mem _ he)
  · intro h r hr
    obtain ⟨e, he, rfl⟩ := List.mem_map.mp hr
    exact h e he

/-- Witness for C8: a two-element int tuple against `Tuple[int, ...]`. -/
theorem claim8_repeated_witness :
    validateElements (.vtuple [.vint 1, .vint 2])
      (.genTuple [.cls .intC, .ellipsisTy]) = .ok () :=
  (claim8_repeated [.vint 1, .vint 2] (.cls .intC)).mpr (by
    intro e he
    rcases List.mem_cons.mp he with rfl | he
    · rfl
    · rcases List.mem_cons.mp he with rfl | he
      · rfl
      · cases he)

/-- CLAIM C9.  With `empty_ok=False`, a falsy field value raises `EmptyError`
at the field-level entry point before and independent of any type checking
(the descriptor is arbitrary). -/
theorem claim9_empty (hints : String → Option Ty) (attrName : String)
    (attrType : Ty) (field : Value) (hfalsy : isFalsy field = true) :
    typeValidatorRun false hints attrName attrType field =
      .error (.emptyError field) := by
  unfold typeValidatorRun
  rw [hfalsy]
  rfl

/-- Witness for C9: the empty list against `List[int]` yields `EmptyError`,
not an element-type result. -/
theorem claim9_empty_witness :
    typeValidatorRun false (fun _ => none) "f" (.genList (.cls .intC))
      (.vlist []) = .error (.emptyError (.vlist [])) :=
  claim9_empty (fun _ => none) "f" (.genList (.cls .intC)) (.vlist []) rfl

/-- Counterexample for C10 as stated: a value that *passes* the instance
check can still make the handler itself fail - the bare class `list` reaches
`_handle_set_or_list`, whose descriptor destructuring
`(element_type,) = expected_type.__args__` raises `AttributeError` because a
bare class has no `__args__`. -/
theorem claim10_guard_cex :
    validateElements (.vlist [.vint 1]) (.cls .listC) =
      .error .attributeErrorCrash ∧
    instOf (.vlist [.vint 1]) .listC = true :=
  ⟨rfl, rfl⟩

/-- CLAIM C10, amended.  The recursive validator reaches a container handler
only after the instance-of-base-category check: whenever the value is not an
instance of the descriptor's unwrapped runtime class, validation raises
`AttributeTypeError` directly, without iterating, indexing or measuring the
value.  (The handlers' value-side operations therefore only see values of the
matching category; the descriptor-side destructuring can still fail for a
bare container class without `__args__`, see the counterexample.) -/
theorem claim10_guard (v : Value) (t : Ty) (c : PyCat)
    (hbase : getBaseType t = .cls c) (hinst : instOf v c = false) :
    validateElements v t = .error (.attributeTypeError v []) := by
  rw [validateElements_eq]
  simp only [vBody]
  rw [hbase]
  show (match instanceCheck v (.cls c) with
    | .error e => Except.error e
    | .ok false => Except.error (.attributeTypeError v [])
    | .ok true => _) = _
  rw [show instanceCheck v (.cls c) = .ok (instOf v c) from rfl, hinst]

/-- Witness for C10: a string against `List[int]` fails the instance check
and yields `AttributeTypeError` directly. -/
theorem claim10_guard_witness :
    validateElements (.vstr "s") (.genList (.cls .intC)) =
      .error (.attributeTypeError (.vstr "s") []) :=
  claim10_guard (.vstr "s") (.genList (.cls .intC)) .listC rfl rfl

end AttrsStrict
